import Mathlib

/-
Verification of the GeoSense-Jordan Streamlit dashboard
(Remote-Sensing-Using-Toolkit).  The repository dispatches one of eight
analysis handlers against Google Earth Engine, caches the returned metrics
mapping in `st.session_state`, and optionally compiles a PDF report.

Shallow embedding: each handler's `run` function is translated as a Lean
function over a small `Remote` structure that carries the remote data the
handler observes (collection sizes, zonal-statistics values) together with
the display strings produced by Python's float formatting (the formatting
itself is floating-point and is taken as an input string).  Return values
are `Option MetricsMap`, where `none` models Python's `None` (a handler
that falls off the end of its body, or an explicit bare `return`).
-/

/-- A metrics mapping as produced by the handlers: an ordered association
list from metric label to pre-formatted display value (a Python dict in
insertion order). -/
abbrev MetricsMap := List (String × String)

/-- The key list of a metrics mapping. -/
def mapKeys (m : MetricsMap) : List String := m.map Prod.fst

/-- Whether the pattern (first argument) matches at the head of the
character list (second argument). -/
def headMatch : List Char → List Char → Bool
  | [], _ => true
  | _ :: _, [] => false
  | a :: as, b :: bs => a == b && headMatch as bs

/-- Whether the pattern (second argument) occurs as a contiguous
sub-sequence of the character list (first argument). -/
def subMatch : List Char → List Char → Bool
  | [], pat => pat.isEmpty
  | s@(_ :: rest), pat => headMatch pat s || subMatch rest pat

/-- Python's substring test `pat in s`, over the strings' characters. -/
def strContains (s pat : String) : Bool := subMatch s.data pat.data

namespace flood_mapping

/-- Remote data observed by `run` of src/modules/flood_mapping.py:
the size of the filtered Sentinel-1 collection and the zonal-statistics
result for band `flood` (`none` = key absent from the returned dict,
`some none` = key present with value `null`). -/
structure Remote where
  s1Size : Nat
  zonalFlood : Option (Option ℚ)
deriving DecidableEq

/-- Embeds `stats.get('flood', 0) or 0` (line 104): a missing key defaults
to 0 and a `None` value is coerced to 0 by `or`. -/
def floodAreaM2 (zonal : Option (Option ℚ)) : ℚ :=
  match zonal with
  | none => 0
  | some none => 0
  | some (some v) => v

/-- `flooded_km2 = (stats.get('flood', 0) or 0) / 1e6` (line 104). -/
def flooded_km2 (zonal : Option (Option ℚ)) : ℚ :=
  floodAreaM2 zonal / 1000000

/-- The risk level displayed in the status card (lines 119-123):
`"Critical" if flooded_km2 > 5 else "Alert" if flooded_km2 > 1 else "Stable"`. -/
def risk_level (a : ℚ) : String :=
  if a > 5 then "Critical" else if a > 1 then "Alert" else "Stable"

/-- Observable outcome of one call of `run`: the warnings written to the
page, the risk level shown in the status card (when reached), and the
value returned to the caller. -/
structure RunResult where
  warnings : List String
  shownRisk : Option String
  retval : Option MetricsMap
deriving DecidableEq

/-- Embeds `run` of src/modules/flood_mapping.py.  On an empty Sentinel-1
collection it warns and executes a bare `return` (lines 33-38); otherwise
it renders the map and metric cards and falls off the end of the body
(line 159), so the returned value is `None` on every path. -/
def run (r : Remote) : RunResult :=
  if r.s1Size = 0 then
    { warnings := ["No radar data found. Satellite coverage may be unavailable for this period."]
      shownRisk := none
      retval := none }
  else
    { warnings := []
      shownRisk := some (risk_level (flooded_km2 r.zonalFlood))
      retval := none }

end flood_mapping

namespace lst

/-- Remote data observed by `run` of src/modules/lst.py: the size of the
filtered MODIS collection and the formatted temperature statistics (the
float formatting `f"..:.2f"` is taken as an input string). -/
structure Remote where
  collSize : Nat
  meanTempS : String
  maxTempS : String
  minTempS : String
deriving DecidableEq

/-- Embeds `run` of src/modules/lst.py: on an empty collection it returns
the status-only dict (lines 29-31), otherwise the six-key metrics dict of
lines 86-93. -/
def run (r : Remote) : Option MetricsMap :=
  if r.collSize = 0 then some [("Status", "No Data Found")]
  else some
    [("Mean Surface Temp", r.meanTempS ++ " C"),
     ("Max Surface Temp", r.maxTempS ++ " C"),
     ("Min Surface Temp", r.minTempS ++ " C"),
     ("Satellite Platform", "MODIS Terra"),
     ("Spatial Resolution", "1,000 meters"),
     ("Correction Method", "Radiometric Scaling (Kelvin-Celsius)")]

end lst

namespace air_quality

/-- The pollutant table of src/modules/air_quality.py lines 10-15:
pollutant key to (dataset path, band name), in insertion order. -/
def pollutant_map : List (String × String × String) :=
  [("NO2", "COPERNICUS/S5P/OFFL/L3_NO2", "NO2_column_number_density"),
   ("CO", "COPERNICUS/S5P/OFFL/L3_CO", "CO_column_number_density"),
   ("O3", "COPERNICUS/S5P/OFFL/L3_O3", "O3_column_number_density"),
   ("SO2", "COPERNICUS/S5P/OFFL/L3_SO2", "SO2_column_number_density")]

/-- The key-extraction loop of lines 18-22: the first table key occurring
as a substring of `pollutant_choice`, defaulting to `"NO2"`. -/
def selectKey (pollutant_choice : String) : String :=
  match (pollutant_map.map Prod.fst).find? (fun k => strContains pollutant_choice k) with
  | some k => k
  | none => "NO2"

/-- Remote data observed by `run` of src/modules/air_quality.py: the
collection size and the formatted mean/max concentrations (`"N/A"` when
the reduction yields null, per lines 59-60). -/
structure Remote where
  collSize : Nat
  fmt_mean : String
  fmt_max : String
deriving DecidableEq

/-- Embeds `run` of src/modules/air_quality.py: status-only dict on an
empty collection (lines 37-39), otherwise the five-key dict of
lines 83-89. -/
def run (r : Remote) (pollutant_choice : String) : Option MetricsMap :=
  if r.collSize = 0 then some [("Status", "No Data Found")]
  else some
    [("Pollutant", selectKey pollutant_choice),
     ("Mean Concentration", r.fmt_mean ++ " mol/m²"),
     ("Max Concentration", r.fmt_max ++ " mol/m²"),
     ("Data Source", "Copernicus Sentinel-5P"),
     ("Resolution", "1.1 km")]

end air_quality

namespace rainfall

/-- Remote data observed by `run` of src/modules/rainfall.py: whether the
ERA5 access raised (with the exception message), and the formatted
mean/max rainfall values. -/
structure Remote where
  excMsg : Option String
  mean_val : String
  max_val : String
deriving DecidableEq

/-- Embeds `run` of src/modules/rainfall.py: the try body returns the
five-key dict of lines 69-75; the except arm returns the Status/Message
dict of line 80. -/
def run (r : Remote) : Option MetricsMap :=
  match r.excMsg with
  | some m => some [("Status", "Error"), ("Message", m)]
  | none => some
      [("Module", "Precipitation Analysis"),
       ("Mean Monthly Rainfall", r.mean_val ++ " mm"),
       ("Max Monthly Rainfall", r.max_val ++ " mm"),
       ("Data Source", "ECMWF ERA5-Land Reanalysis"),
       ("Spatial Resolution", "11km (0.1°)")]

end rainfall

namespace dem_analysis

/-- Remote data observed by `run` of src/modules/dem_analysis.py: whether
the geospatial processing raised (lines 52-54) and the formatted
elevation/slope statistics of lines 46-50 (units already appended). -/
structure Remote where
  excFail : Bool
  mean_elev : String
  max_elev : String
  min_elev : String
  mean_slope : String
  max_slope : String
deriving DecidableEq

/-- Embeds `run` of src/modules/dem_analysis.py: `{"Status": "Error"}` on
a processing exception, otherwise the six-key dict of lines 95-102. -/
def run (r : Remote) : Option MetricsMap :=
  if r.excFail then some [("Status", "Error")]
  else some
    [("Mean Elevation", r.mean_elev),
     ("Max Elevation", r.max_elev),
     ("Min Elevation", r.min_elev),
     ("Mean Slope", r.mean_slope),
     ("Max Slope", r.max_slope),
     ("DEM Source", "JAXA ALOS AW3D30")]

end dem_analysis

namespace rs_indices

/-- Remote data observed by `run` of src/modules/rs_indices.py: the size
of the one-month Landsat collection. -/
structure Remote where
  collSize : Nat
deriving DecidableEq

/-- Observable outcome of one call of `run`: warnings written to the page
and the value returned to the caller. -/
structure RunResult where
  warnings : List String
  retval : Option MetricsMap
deriving DecidableEq

/-- Embeds `run` of src/modules/rs_indices.py: an empty collection only
widens the search window with a warning (lines 37-43); the body has no
return statement, so the returned value is `None` on every path
(line 121). -/
def run (r : Remote) : RunResult :=
  { warnings :=
      if r.collSize = 0 then
        ["No clear imagery found for this period. Expanding search to 6 months..."]
      else []
    retval := none }

end rs_indices

namespace wildfire

/-- Remote data observed by `run` of src/modules/wildfire.py: the FIRMS
detection count and the formatted maximum brightness temperature (`none`
when the reduction yields null). -/
structure Remote where
  fire_count : Nat
  maxValS : Option String
deriving DecidableEq

/-- Observable outcome of one call of `run`. -/
structure RunResult where
  shownMetrics : MetricsMap
  warnings : List String
  retval : Option MetricsMap
deriving DecidableEq

/-- Embeds `run` of src/modules/wildfire.py: the hotspot count metric is
always shown (line 29); the max-temperature metric only when fires were
detected (lines 44-48); the body never returns a value (line 95), so the
returned value is `None` on every path. -/
def run (r : Remote) : RunResult :=
  { shownMetrics :=
      ("Detected Hotspots", toString r.fire_count ++ " points") ::
        (if r.fire_count > 0 then
          [("Max Brightness Temp",
            match r.maxValS with
            | some v => v ++ " K"
            | none => "N/A")]
        else [])
    warnings :=
      if r.fire_count > 0 then []
      else ["No active wildfires were detected during this period."]
    retval := none }

end wildfire

namespace land_cover

/-- Remote data observed by `run` of src/modules/land_cover.py: the size
of the one-month Sentinel-2 collection and whether classifier training
raised (lines 88-90). -/
structure Remote where
  collSize : Nat
  trainFail : Bool
deriving DecidableEq

/-- Observable outcome of one call of `run`. -/
structure RunResult where
  warnings : List String
  retval : Option MetricsMap
deriving DecidableEq

/-- Embeds `run` of src/modules/land_cover.py: an empty collection widens
the search window with a warning (lines 40-51); a training failure
executes a bare `return` (line 90); otherwise the body falls off the end
(line 176).  The returned value is `None` on every path. -/
def run (r : Remote) : RunResult :=
  { warnings :=
      (if r.collSize = 0 then
        ["No cloud-free imagery available. Expanding temporal search window..."]
      else [])
      ++ (if r.trainFail then ["Model training failed"] else [])
    retval := none }

end land_cover

/-- The Streamlit session state used by src/app.py (lines 186-191):
`stats` is `Option MetricsMap` because Python assigns the handler's return
value to it and several handlers return `None`; `some m` models a dict. -/
structure SessionState where
  data_captured : Bool
  stats : Option MetricsMap
  chart_img : Option String
deriving DecidableEq

/-- The initial session state of src/app.py lines 186-191:
`data_captured = False`, `stats = {}`, `chart_img = None`. -/
def initState : SessionState :=
  { data_captured := false, stats := some [], chart_img := none }

/-- What a dispatched handler call did: returned a value normally, or
raised an exception with the given message. -/
inductive HandlerOutcome where
  | ok (results : Option MetricsMap)
  | raised (msg : String)
deriving DecidableEq

/-- Result of one pass through the analysis execution engine: the new
session state, the messages surfaced to the user, and the exception
propagated to the caller, if any. -/
structure EngineResult where
  state : SessionState
  surfaced : List String
  propagated : Option String
deriving DecidableEq

/-- Embeds the analysis execution engine of src/app.py lines 233-262: the
run button's try block first clears `chart_img` (line 237), dispatches the
handler, then stores its return value in `stats` and sets `data_captured`
(lines 257-258); `except Exception` displays `"Execution Error: ..."` and
propagates nothing (lines 261-262). -/
def engineRun (target_city : String) (s : SessionState) (o : HandlerOutcome) : EngineResult :=
  match o with
  | HandlerOutcome.ok results =>
      { state := { data_captured := true, stats := results, chart_img := none }
        surfaced := ["Computation for " ++ target_city ++ " completed successfully."]
        propagated := none }
  | HandlerOutcome.raised msg =>
      { state := { data_captured := s.data_captured, stats := s.stats, chart_img := none }
        surfaced := ["Execution Error: " ++ msg]
        propagated := none }

/-- Embeds the chart snapshot save of src/app.py lines 286-293: on a
successful Kaleido export `chart_img` is set to the temp path; on failure
a warning is shown and `chart_img` is left unchanged. -/
def chartSnapshot (s : SessionState) (kaleidoOk : Bool) (temp_path : String) : SessionState :=
  if kaleidoOk then
    { data_captured := s.data_captured, stats := s.stats, chart_img := some temp_path }
  else s

/-- The eight analysis-type strings of the module selectbox
(src/app.py lines 206-215). -/
def analysisModules : List String :=
  ["Precipitation & Rainfall (NASA GPM)",
   "Terrain Analysis (DEM / Slope / Aspect)",
   "Flood Mapping & Risk (SAR)",
   "Spectral Indices & Environmental Metrics",
   "Air Quality Monitoring (Sentinel-5P)",
   "Land Surface Temperature (LST)",
   "Active Wildfires (FIRMS)",
   "Land Cover Classification"]

/-- Embeds the routing chain of src/app.py lines 240-255: the name of the
single handler the `if/elif` chain invokes for a selector, `none` when no
branch matches. -/
def dispatchHandler (analysis_type : String) : Option String :=
  if analysis_type = "Precipitation & Rainfall (NASA GPM)" then some "rainfall.run"
  else if analysis_type = "Terrain Analysis (DEM / Slope / Aspect)" then some "dem_analysis.run"
  else if analysis_type = "Flood Mapping & Risk (SAR)" then some "flood_mapping.run"
  else if analysis_type = "Spectral Indices & Environmental Metrics" then some "rs_indices.run"
  else if analysis_type = "Air Quality Monitoring (Sentinel-5P)" then some "air_quality.run"
  else if analysis_type = "Land Surface Temperature (LST)" then some "lst.run"
  else if analysis_type = "Active Wildfires (FIRMS)" then some "wildfire.run"
  else if analysis_type = "Land Cover Classification" then some "land_cover.run"
  else none

/-- The list of handler calls one pass of the routing chain performs:
at most one, since the branches are mutually exclusive `elif`s. -/
def dispatchCalls (analysis_type : String) : List String :=
  (dispatchHandler analysis_type).toList

namespace generate_pdf_report

/-- The keys the KPI-card loop of src/app.py line 117 skips:
`if key not in ['Module', 'Data Source', 'Status']`. -/
def excludedKeys : List String := ["Module", "Data Source", "Status"]

/-- The Data Source cell of the metadata table (src/app.py line 88):
`str(stats_data.get('Data Source', 'Satellite Constellation'))`. -/
def metaDataSourceCell (stats_data : MetricsMap) : String :=
  (stats_data.lookup "Data Source").getD "Satellite Constellation"

/-- The key/value pairs rendered as KPI data cards by the loop of
src/app.py lines 115-143. -/
def kpiPairs (stats_data : MetricsMap) : MetricsMap :=
  stats_data.filter (fun kv => !(excludedKeys.contains kv.1))

/-- All key/value pairs of `stats_data` that appear in the produced
document: the Data Source row of the metadata table plus the KPI cards. -/
def docPairs (stats_data : MetricsMap) : MetricsMap :=
  ("Data Source", metaDataSourceCell stats_data) :: kpiPairs stats_data

end generate_pdf_report

/-- The governorate selectbox options of src/app.py line 198. -/
def jordan_governorates : List String :=
  ["Amman", "Irbid", "Zarqa", "Aqaba", "Madaba", "Mafraq", "Balqa",
   "Jerash", "Karak", "Ma\x27an", "Tafilah", "Ajloun"]

/-- The common-name-to-GAUL-name table of src/utils/geometry_utils.py
lines 17-30. -/
def name_mapping : List (String × String) :=
  [("Amman", "Amman"), ("Irbid", "Irbid"), ("Zarqa", "Az Zarqa"),
   ("Aqaba", "Al Aqabah"), ("Madaba", "Madaba"), ("Mafraq", "Al Mafraq"),
   ("Balqa", "Al Balqa"), ("Jerash", "Jarash"), ("Karak", "Al Karak"),
   ("Ma\x27an", "Ma\x27an"), ("Tafilah", "At Tafilah"), ("Ajloun", "Ajlun")]

/-- Modelled from the spec: the third-party administrative-boundary
dataset (GAUL level-1 rows for Jordan) queried by the region resolver —
external data, not code of this repository.  Its ADM1 names are exactly
the GAUL names the code's `name_mapping` targets. -/
def gaulJordanAdm1 : List String :=
  ["Amman", "Irbid", "Az Zarqa", "Al Aqabah", "Madaba", "Al Mafraq",
   "Al Balqa", "Jarash", "Al Karak", "Ma\x27an", "At Tafilah", "Ajlun"]

/-- The value returned by the region resolver: either the feature
collection obtained by filtering the ADM1 rows (possibly empty), or the
country-level fallback polygon of the except arm. -/
inductive Roi where
  | adm1 (rows : List String)
  | countryFallback
deriving DecidableEq

/-- Whether a returned region is non-empty. -/
def roiNonEmpty : Roi → Bool
  | Roi.adm1 rows => !rows.isEmpty
  | Roi.countryFallback => true

/-- Embeds `get_country_roi` of src/utils/geometry_utils.py over the
dataset's ADM1 name list; `lookupRaises` models an exception inside the
try body (e.g. a failing network call), which is the only path to the
country-level fallback (lines 44-48).  The try body maps the input name
through `name_mapping` (line 33), filters for an exact ADM1 match
(line 36), and on an empty result retries with a substring match
(lines 39-40), returning that second filter result unconditionally. -/
def get_country_roi (dataset : List String) (lookupRaises : Bool) (area_name : String) : Roi :=
  if lookupRaises then Roi.countryFallback
  else
    let search_name := (name_mapping.lookup area_name).getD area_name
    let exact := dataset.filter (fun n => n == search_name)
    if exact.length = 0 then
      Roi.adm1 (dataset.filter (fun n => strContains n area_name))
    else
      Roi.adm1 exact

/-- Embeds `authenticate_gee` of src/utils/helpers.py: `True` only when
the secret is present and `ee.Initialize` succeeds; missing secret or any
exception yields an error message and `False`. -/
def authenticate_gee (hasSecret : Bool) (initOk : Bool) : Bool :=
  hasSecret && initOk

/-- An observable top-level action of src/app.py. -/
inductive AppEvent where
  | regionLookup (name : String)
  | dispatchRun (selector : String)
  | reportGen
  | blockingError (msg : String)
deriving DecidableEq

/-- The user inputs of one script pass of src/app.py. -/
structure UiInputs where
  target_city : String
  analysis_type : String
  runClicked : Bool
  reportClicked : Bool
deriving DecidableEq

/-- Embeds the top-level control flow of src/app.py lines 193-326: the
whole UI body — region lookup (line 220), run dispatch (line 233), report
generation (line 301) — sits under `if authenticate_gee():`; the else arm
(lines 325-326) only displays the blocking authentication error. -/
def appMain (authOk : Bool) (ui : UiInputs) : List AppEvent :=
  if authOk then
    [AppEvent.regionLookup ui.target_city]
      ++ (if ui.runClicked then [AppEvent.dispatchRun ui.analysis_type] else [])
      ++ (if ui.reportClicked then [AppEvent.reportGen] else [])
  else
    [AppEvent.blockingError "Earth Engine Authentication Error. Please check your credentials."]

/-- The module-to-time-series table `ts_mapping` of src/app.py
lines 271-276. -/
def ts_mapping : List (String × String) :=
  [("Precipitation & Rainfall (NASA GPM)", "Rainfall"),
   ("Air Quality Monitoring (Sentinel-5P)", "Air Quality"),
   ("Land Surface Temperature (LST)", "Temp"),
   ("Spectral Indices & Environmental Metrics", "Vegetation")]

/-- `ts_target = ts_mapping.get(analysis_type, "Vegetation")`
(src/app.py line 277). -/
def ts_target (analysis_type : String) : String :=
  (ts_mapping.lookup analysis_type).getD "Vegetation"

namespace time_series

/-- A dataset choice of `run_analysis` in src/modules/time_series.py:
collection path, display label and unit. -/
structure SeriesChoice where
  dataset : String
  label : String
  unit_label : String
deriving DecidableEq

/-- Embeds the dataset selection logic of src/modules/time_series.py
lines 12-42: Python substring tests on `analysis_type`, in source order;
`none` models the `else` arm that declines the analysis and returns
`None`. -/
def selectSeries (analysis_type : String) : Option SeriesChoice :=
  if strContains analysis_type "Air Quality" then
    some ⟨"COPERNICUS/S5P/OFFL/L3_NO2", "NO₂ Concentration", "mol/m²"⟩
  else if strContains analysis_type "Vegetation" || strContains analysis_type "Indices" then
    some ⟨"MODIS/061/MOD13Q1", "Vegetation Index (NDVI)", "NDVI Score"⟩
  else if strContains analysis_type "Temp" then
    some ⟨"MODIS/061/MOD11A1", "Land Surface Temp", "Celsius (°C)"⟩
  else if strContains analysis_type "Rainfall" then
    some ⟨"NASA/GPM_L3/IMERG_V06", "Total Precipitation", "Rainfall (mm)"⟩
  else none

end time_series

/-- A session state obtained by a completed LST run followed by a
successful chart snapshot: the configuration the chart-clearing
counterexample starts from. -/
def runThenChart : SessionState :=
  chartSnapshot
    (engineRun "Amman" initState
      (HandlerOutcome.ok (lst.run ⟨1, "20.00", "30.00", "10.00"⟩))).state
    true "/tmp/chart_Amman.png"

/-- Helper: in an association list with pairwise-distinct keys, `lookup`
returns the value of any member pair. -/
theorem lookup_of_mem {k v : String} :
    ∀ {l : MetricsMap}, (mapKeys l).Nodup → (k, v) ∈ l → l.lookup k = some v := by
  intro l
  induction l with
  | nil => intro _ h; cases h
  | cons hd tl ih =>
    intro hnd hmem
    have hnd' : hd.1 ∉ mapKeys tl ∧ (mapKeys tl).Nodup := by
      simpa [mapKeys] using hnd
    rcases List.mem_cons.mp hmem with heq | htl
    · cases hd
      cases heq
      simp [List.lookup]
    · have hk : k ∈ mapKeys tl := List.mem_map.mpr ⟨(k, v), htl, rfl⟩
      have hne : (k == hd.1) = false := by
        refine beq_eq_false_iff_ne.mpr fun h => ?_
        exact hnd'.1 (h ▸ hk)
      cases hd
      simpa [List.lookup, hne] using ih hnd'.2 htl

/-- Claim C10: in the flood-mapping handler the displayed risk level is a
total function of the flooded area in km²: "Critical" iff the area exceeds
5, "Alert" iff it is greater than 1 and at most 5, "Stable" otherwise; a
missing or null zonal-statistics sum is treated as area 0 and yields
"Stable". -/
theorem flood_risk_level_total :
    (∀ a : ℚ,
      (flood_mapping.risk_level a = "Critical" ↔ 5 < a)
      ∧ (flood_mapping.risk_level a = "Alert" ↔ 1 < a ∧ a ≤ 5)
      ∧ (flood_mapping.risk_level a = "Stable" ↔ a ≤ 1))
    ∧ flood_mapping.flooded_km2 none = 0
    ∧ flood_mapping.flooded_km2 (some none) = 0
    ∧ flood_mapping.risk_level (flood_mapping.flooded_km2 none) = "Stable"
    ∧ flood_mapping.risk_level (flood_mapping.flooded_km2 (some none)) = "Stable" := by
  refine ⟨fun a => ?_,
    by norm_num [flood_mapping.flooded_km2, flood_mapping.floodAreaM2],
    by norm_num [flood_mapping.flooded_km2, flood_mapping.floodAreaM2],
    by norm_num [flood_mapping.risk_level, flood_mapping.flooded_km2, flood_mapping.floodAreaM2],
    by norm_num [flood_mapping.risk_level, flood_mapping.flooded_km2, flood_mapping.floodAreaM2]⟩
  unfold flood_mapping.risk_level
  by_cases h5 : (5:ℚ) < a
  · rw [if_pos h5]
    exact ⟨⟨fun _ => h5, fun _ => rfl⟩,
           ⟨fun h => absurd h (by decide), fun h => absurd h.2 (not_le.mpr h5)⟩,
           ⟨fun h => absurd h (by decide),
            fun h => absurd h5 (not_lt.mpr (h.trans (by norm_num)))⟩⟩
  · rw [if_neg h5]
    by_cases h1 : (1:ℚ) < a
    · rw [if_pos h1]
      exact ⟨⟨fun h => absurd h (by decide), fun h => absurd h h5⟩,
             ⟨fun _ => ⟨h1, not_lt.mp h5⟩, fun _ => rfl⟩,
             ⟨fun h => absurd h (by decide), fun h => absurd h1 (not_lt.mpr h)⟩⟩
    · rw [if_neg h1]
      exact ⟨⟨fun h => absurd h (by decide), fun h => absurd h h5⟩,
             ⟨fun h => absurd h (by decide), fun h => absurd h.1 h1⟩,
             ⟨fun _ => not_lt.mp h1, fun _ => rfl⟩⟩

/-- Claim C1, counterexample: a flood-mapping run that completes without
raising (non-empty collection, 3 km² of detected water) returns `None`,
so the session cache afterwards holds `None`, not a metrics mapping. -/
theorem flood_run_caches_no_mapping :
    (engineRun "Amman" initState
      (HandlerOutcome.ok (flood_mapping.run ⟨1, some (some 3000000)⟩).retval)).state.stats
        = none
    ∧ ((engineRun "Amman" initState
        (HandlerOutcome.ok (flood_mapping.run ⟨1, some (some 3000000)⟩).retval)).state.stats).isSome
        = false :=
  ⟨rfl, rfl⟩

/-- Claim C1 (amended): after a run that completes without raising, the
rainfall, terrain, air-quality and LST handlers return a metrics mapping
whose key list is fixed by the branch taken, hence stable across repeated
runs with the same inputs; the flood-mapping, spectral-indices, wildfire
and land-cover handlers return `None`, so after their runs the session
cache holds no metrics mapping. -/
theorem cache_keys_by_module :
    (∀ r : lst.Remote, (lst.run r).map mapKeys
        = some (if r.collSize = 0 then ["Status"]
            else ["Mean Surface Temp", "Max Surface Temp", "Min Surface Temp",
                  "Satellite Platform", "Spatial Resolution", "Correction Method"]))
    ∧ (∀ r : rainfall.Remote, (rainfall.run r).map mapKeys
        = some (match r.excMsg with
            | some _ => ["Status", "Message"]
            | none => ["Module", "Mean Monthly Rainfall", "Max Monthly Rainfall",
                       "Data Source", "Spatial Resolution"]))
    ∧ (∀ (r : air_quality.Remote) (p : String), (air_quality.run r p).map mapKeys
        = some (if r.collSize = 0 then ["Status"]
            else ["Pollutant", "Mean Concentration", "Max Concentration",
                  "Data Source", "Resolution"]))
    ∧ (∀ r : dem_analysis.Remote, (dem_analysis.run r).map mapKeys
        = some (if r.excFail then ["Status"]
            else ["Mean Elevation", "Max Elevation", "Min Elevation",
                  "Mean Slope", "Max Slope", "DEM Source"]))
    ∧ (∀ r : flood_mapping.Remote, (flood_mapping.run r).retval = none)
    ∧ (∀ r : rs_indices.Remote, (rs_indices.run r).retval = none)
    ∧ (∀ r : wildfire.Remote, (wildfire.run r).retval = none)
    ∧ (∀ r : land_cover.Remote, (land_cover.run r).retval = none) := by
  refine ⟨fun r => ?_, fun r => ?_, fun r p => ?_, fun r => ?_,
          fun r => ?_, fun r => rfl, fun r => rfl, fun r => ?_⟩
  · by_cases h : r.collSize = 0 <;> simp [lst.run, mapKeys, h]
  · cases h : r.excMsg <;> simp [rainfall.run, mapKeys, h]
  · by_cases h : r.collSize = 0 <;> simp [air_quality.run, mapKeys, h]
  · by_cases h : r.excFail <;> simp [dem_analysis.run, mapKeys, h]
  · by_cases h : r.s1Size = 0 <;> simp [flood_mapping.run, h]
  · by_cases h : r.collSize = 0 <;> simp [land_cover.run, h]

/-- Claim C2, counterexample: on an empty Sentinel-1 collection the
flood-mapping handler returns `None` — no mapping at all, hence no
status-only mapping and no "no data" signal inside a returned mapping. -/
theorem flood_empty_returns_none :
    (flood_mapping.run ⟨0, none⟩).retval = none
    ∧ ((flood_mapping.run ⟨0, none⟩).retval).isSome = false :=
  ⟨rfl, rfl⟩

/-- Claim C2 (amended): on an empty remote collection no handler raises,
but the signal differs: the LST and air-quality handlers return the
status-only mapping Status = "No Data Found"; the rainfall handler
returns a Status/Message mapping when the remote access fails; the
flood-mapping and wildfire handlers return `None` (no mapping); the
spectral-indices and land-cover handlers instead warn and widen the
search window, still returning `None`. -/
theorem empty_collection_signals :
    (∀ r : flood_mapping.Remote, r.s1Size = 0 → (flood_mapping.run r).retval = none)
    ∧ (∀ r : lst.Remote, r.collSize = 0 → lst.run r = some [("Status", "No Data Found")])
    ∧ (∀ (r : air_quality.Remote) (p : String), r.collSize = 0 →
        air_quality.run r p = some [("Status", "No Data Found")])
    ∧ (∀ r : wildfire.Remote, r.fire_count = 0 → (wildfire.run r).retval = none)
    ∧ (∀ (r : rainfall.Remote) (m : String), r.excMsg = some m →
        rainfall.run r = some [("Status", "Error"), ("Message", m)])
    ∧ (∀ r : rs_indices.Remote, r.collSize = 0 →
        (rs_indices.run r).warnings
          = ["No clear imagery found for this period. Expanding search to 6 months..."]
        ∧ (rs_indices.run r).retval = none)
    ∧ (∀ r : land_cover.Remote, r.collSize = 0 → r.trainFail = false →
        (land_cover.run r).warnings
          = ["No cloud-free imagery available. Expanding temporal search window..."]
        ∧ (land_cover.run r).retval = none) := by
  refine ⟨fun r h => by simp [flood_mapping.run, h],
          fun r h => by simp [lst.run, h],
          fun r p h => by simp [air_quality.run, h],
          fun r h => rfl,
          fun r m h => by simp [rainfall.run, h],
          fun r h => by simp [rs_indices.run, h],
          fun r h h2 => by simp [land_cover.run, h, h2]⟩

/-- Witness for the amended C2 theorem at concrete empty-collection
inputs. -/
theorem empty_collection_signals_witness :
    (flood_mapping.run ⟨0, none⟩).retval = none
    ∧ lst.run ⟨0, "", "", ""⟩ = some [("Status", "No Data Found")]
    ∧ air_quality.run ⟨0, "", ""⟩ "NO2" = some [("Status", "No Data Found")]
    ∧ (wildfire.run ⟨0, none⟩).retval = none
    ∧ rainfall.run ⟨some "HttpError 404", "", ""⟩
        = some [("Status", "Error"), ("Message", "HttpError 404")]
    ∧ (rs_indices.run ⟨0⟩).warnings
        = ["No clear imagery found for this period. Expanding search to 6 months..."]
    ∧ (land_cover.run ⟨0, false⟩).retval = none :=
  ⟨empty_collection_signals.1 ⟨0, none⟩ rfl,
   empty_collection_signals.2.1 ⟨0, "", "", ""⟩ rfl,
   empty_collection_signals.2.2.1 ⟨0, "", ""⟩ "NO2" rfl,
   empty_collection_signals.2.2.2.1 ⟨0, none⟩ rfl,
   empty_collection_signals.2.2.2.2.1 ⟨some "HttpError 404", "", ""⟩ "HttpError 404" rfl,
   (empty_collection_signals.2.2.2.2.2.1 ⟨0⟩ rfl).1,
   (empty_collection_signals.2.2.2.2.2.2 ⟨0, false⟩ rfl rfl).2⟩

/-- Claim C3, counterexample: the rainfall handler's metrics mapping
contains the pair ("Module", "Precipitation Analysis"), but the report
compiler's KPI loop skips the key "Module" and no other part of the
document renders it, so that pair is absent from the document. -/
theorem module_key_not_in_report :
    rainfall.run ⟨none, "12.50", "30.10"⟩
      = some [("Module", "Precipitation Analysis"),
              ("Mean Monthly Rainfall", "12.50 mm"),
              ("Max Monthly Rainfall", "30.10 mm"),
              ("Data Source", "ECMWF ERA5-Land Reanalysis"),
              ("Spatial Resolution", "11km (0.1°)")]
    ∧ ("Module", "Precipitation Analysis")
        ∈ ((rainfall.run ⟨none, "12.50", "30.10"⟩).getD [])
    ∧ ("Module", "Precipitation Analysis")
        ∉ generate_pdf_report.docPairs ((rainfall.run ⟨none, "12.50", "30.10"⟩).getD []) := by
  refine ⟨rfl, by decide, by decide⟩

/-- Claim C3 (amended): for a cached metrics mapping with pairwise
distinct keys, the document produced by the report compiler contains
every key/value pair of the mapping except those keyed "Module" or
"Status"; the "Data Source" pair appears via the metadata table, all
other pairs via the KPI cards. -/
theorem report_contains_pairs (stats_data : MetricsMap)
    (hnd : (mapKeys stats_data).Nodup) :
    ∀ kv ∈ stats_data, kv.1 ≠ "Module" → kv.1 ≠ "Status" →
      kv ∈ generate_pdf_report.docPairs stats_data := by
  intro kv hmem hM hS
  by_cases hDS : kv.1 = "Data Source"
  · have hlk : stats_data.lookup "Data Source" = some kv.2 := by
      rw [← hDS]
      exact lookup_of_mem hnd (by simpa using hmem)
    have : generate_pdf_report.metaDataSourceCell stats_data = kv.2 := by
      simp [generate_pdf_report.metaDataSourceCell, hlk]
    refine List.mem_cons.mpr (Or.inl ?_)
    rw [this, ← hDS]
  · refine List.mem_cons.mpr (Or.inr ?_)
    refine List.mem_filter.mpr ⟨hmem, ?_⟩
    simp [generate_pdf_report.excludedKeys, hM, hS, hDS]

/-- Witness for the amended C3 theorem: the Mean Surface Temp pair of a
concrete LST result appears in the compiled document. -/
theorem report_contains_pairs_witness :
    ("Mean Surface Temp", "20.00 C")
      ∈ generate_pdf_report.docPairs ((lst.run ⟨1, "20.00", "30.00", "10.00"⟩).getD []) :=
  report_contains_pairs ((lst.run ⟨1, "20.00", "30.00", "10.00"⟩).getD [])
    (by decide) ("Mean Surface Temp", "20.00 C") (by decide) (by decide) (by decide)

/-- Claim C4, counterexample: for a name matching nothing ("Xyzzy"), the
resolver returns the empty filter result of the substring retry, not the
country-level default polygon — that fallback is reached only via the
exception path. -/
theorem unrecognized_name_empty_region :
    get_country_roi gaulJordanAdm1 false "Xyzzy" = Roi.adm1 []
    ∧ get_country_roi gaulJordanAdm1 false "Xyzzy" ≠ Roi.countryFallback
    ∧ roiNonEmpty (get_country_roi gaulJordanAdm1 false "Xyzzy") = false := by
  refine ⟨by decide, by decide, by decide⟩

/-- Claim C4 (amended): with the boundary dataset holding the GAUL ADM1
names that `name_mapping` targets, the resolver returns a non-empty
region for every name of the fixed governorate list and never raises; an
unrecognized name falls back to a substring match, and when that also
fails the resolver returns an empty region — the country-level default
polygon is returned only when the lookup itself raises. -/
theorem region_resolver_behavior :
    (jordan_governorates.all
      (fun name => roiNonEmpty (get_country_roi gaulJordanAdm1 false name))) = true
    ∧ (∀ (dataset : List String) (n : String),
        get_country_roi dataset true n = Roi.countryFallback)
    ∧ get_country_roi gaulJordanAdm1 false "Zarq" = Roi.adm1 ["Az Zarqa"]
    ∧ get_country_roi gaulJordanAdm1 false "Xyzzy" = Roi.adm1 [] := by
  refine ⟨by decide, fun d n => rfl, by decide, by decide⟩

/-- Claim C5, counterexample: starting from a completed run with a saved
chart snapshot, a failed run keeps the cached metrics mapping but resets
the chart-artifact reference to `None`, so the cached state no longer
corresponds to the last completed run. -/
theorem failed_run_clears_chart :
    runThenChart.chart_img = some "/tmp/chart_Amman.png"
    ∧ (engineRun "Amman" runThenChart (HandlerOutcome.raised "EEException")).state.stats
        = runThenChart.stats
    ∧ (engineRun "Amman" runThenChart (HandlerOutcome.raised "EEException")).state.chart_img
        = none
    ∧ (engineRun "Amman" runThenChart (HandlerOutcome.raised "EEException")).state.chart_img
        ≠ runThenChart.chart_img := by
  refine ⟨rfl, rfl, rfl, by decide⟩

/-- Claim C5 (amended): the cached metrics mapping and `data_captured`
are overwritten only by a completed run — a failed run leaves them
intact — but every run action first resets the chart-artifact reference
to `None` (it is repopulated only by a later successful snapshot), so
after a failed run the chart reference of the previous completed run is
lost. -/
theorem session_cache_run_semantics :
    ∀ (city : String) (s : SessionState) (m : String) (results : Option MetricsMap),
      ((engineRun city s (HandlerOutcome.raised m)).state.stats = s.stats
        ∧ (engineRun city s (HandlerOutcome.raised m)).state.data_captured = s.data_captured
        ∧ (engineRun city s (HandlerOutcome.raised m)).state.chart_img = none)
      ∧ ((engineRun city s (HandlerOutcome.ok results)).state.stats = results
        ∧ (engineRun city s (HandlerOutcome.ok results)).state.data_captured = true
        ∧ (engineRun city s (HandlerOutcome.ok results)).state.chart_img = none)
      ∧ (∀ (ok : Bool) (p : String),
          (chartSnapshot s ok p).stats = s.stats
          ∧ (chartSnapshot s ok p).data_captured = s.data_captured) := by
  intro city s m results
  refine ⟨⟨rfl, rfl, rfl⟩, ⟨rfl, rfl, rfl⟩, fun ok p => ?_⟩
  cases ok <;> exact ⟨rfl, rfl⟩

/-- Claim C6: an exception raised by any dispatched handler is caught at
the run button's dispatch boundary, surfaced as the single generic string
"Execution Error: " followed by the exception text — uniformly, with no
classification by error kind — and is never propagated to the caller. -/
theorem dispatch_boundary_catches :
    ∀ (city : String) (s : SessionState) (m : String),
      (engineRun city s (HandlerOutcome.raised m)).propagated = none
      ∧ (engineRun city s (HandlerOutcome.raised m)).surfaced = ["Execution Error: " ++ m] :=
  fun _ _ _ => ⟨rfl, rfl⟩

/-- Claim C7: when the authentication gate fails, the script pass
produces only the blocking error message — no region lookup, no analysis
dispatch and no report generation occur. -/
theorem auth_gate_blocks (hasSecret initOk : Bool) (ui : UiInputs)
    (hAuth : authenticate_gee hasSecret initOk = false) :
    appMain (authenticate_gee hasSecret initOk) ui
      = [AppEvent.blockingError
          "Earth Engine Authentication Error. Please check your credentials."]
    ∧ ∀ e ∈ appMain (authenticate_gee hasSecret initOk) ui,
        (∀ n, e ≠ AppEvent.regionLookup n)
        ∧ (∀ t, e ≠ AppEvent.dispatchRun t)
        ∧ e ≠ AppEvent.reportGen := by
  rw [hAuth]
  refine ⟨rfl, fun e he => ?_⟩
  have : e = AppEvent.blockingError
      "Earth Engine Authentication Error. Please check your credentials." := by
    simpa [appMain] using he
  subst this
  exact ⟨fun n h => AppEvent.noConfusion h,
         fun t h => AppEvent.noConfusion h,
         fun h => AppEvent.noConfusion h⟩

/-- Witness for the C7 theorem: missing secret, both buttons clicked. -/
theorem auth_gate_blocks_witness :
    appMain (authenticate_gee false true)
        ⟨"Amman", "Flood Mapping & Risk (SAR)", true, true⟩
      = [AppEvent.blockingError
          "Earth Engine Authentication Error. Please check your credentials."] :=
  (auth_gate_blocks false true ⟨"Amman", "Flood Mapping & Risk (SAR)", true, true⟩ rfl).1

/-- Claim C8: each of the eight module selectors is routed to exactly one
handler, and no request ever invokes more than one handler. -/
theorem dispatcher_exactly_one :
    (analysisModules.all (fun t => (dispatchCalls t).length == 1)) = true
    ∧ ∀ t : String, (dispatchCalls t).length ≤ 1 := by
  refine ⟨by decide, fun t => ?_⟩
  unfold dispatchCalls
  cases dispatchHandler t <;> simp

/-- Claim C9: for the four selectors absent from `ts_mapping` (terrain,
flood, wildfire, land cover), enabling time-series analysis silently
falls back to the target "Vegetation", which the time-series routine
resolves to the MODIS MOD13Q1 NDVI series rather than a module-specific
series or a refusal. -/
theorem ts_fallback_vegetation :
    (["Terrain Analysis (DEM / Slope / Aspect)",
      "Flood Mapping & Risk (SAR)",
      "Active Wildfires (FIRMS)",
      "Land Cover Classification"].all
      (fun t => ts_target t == "Vegetation")) = true
    ∧ time_series.selectSeries (ts_target "Terrain Analysis (DEM / Slope / Aspect)")
        = some ⟨"MODIS/061/MOD13Q1", "Vegetation Index (NDVI)", "NDVI Score"⟩
    ∧ time_series.selectSeries (ts_target "Flood Mapping & Risk (SAR)")
        = some ⟨"MODIS/061/MOD13Q1", "Vegetation Index (NDVI)", "NDVI Score"⟩
    ∧ time_series.selectSeries (ts_target "Active Wildfires (FIRMS)")
        = some ⟨"MODIS/061/MOD13Q1", "Vegetation Index (NDVI)", "NDVI Score"⟩
    ∧ time_series.selectSeries (ts_target "Land Cover Classification")
        = some ⟨"MODIS/061/MOD13Q1", "Vegetation Index (NDVI)", "NDVI Score"⟩ := by
  refine ⟨by decide, by decide, by decide, by decide, by decide⟩
